import Mathlib

/-!
Shallow embedding of the uoracs/git-sync server (src/main.go, the
token-based variant: fields `Tokens`, `GlobalTokens`, header
`X-GIT-SYNC-TOKEN`).

Out-of-scope boundaries are modelled as explicit inputs:
  - the YAML file load is out of scope; a `serverConfig` value is the input;
  - the JSON body decode result is an input (`Except String repositoryRequest`,
    error = decode failure with the decoder message);
  - each `git` subprocess outcome is an oracle `SyncStep -> Option String`
    (`none` = exit success, `some e` = failure whose formatted error text is `e`);
  - the handler records which subprocess steps it invoked as a trace
    (`List SyncStep`), so absence of sync side effects is the empty trace.

Go specifics kept faithfully:
  - in `processConfig` the go loop variable `r` is a copy, so
    `append(r.Tokens, t)` always appends to the pre-loop token list: after the
    inner loop only the LAST global token has been added, and the
    `r.Branch = "main"` default is written to the copy only and is lost;
  - the fully-authorized POST path returns without writing a header or body;
    go net/http then sends status 200 with an empty body.
-/

structure repositoryConfig where
  Name : String
  Local : String
  Remote : String
  Branch : String
  Tokens : List String
deriving DecidableEq

/-- go: `func (rc repositoryConfig) validToken(key string) bool`
(`slices.Contains(rc.Tokens, key)`). -/
def validToken (rc : repositoryConfig) (key : String) : Bool :=
  rc.Tokens.contains key

structure serverConfig where
  Address : String
  Port : String
  GlobalTokens : List String
  Repositories : List repositoryConfig
deriving DecidableEq

/-- go: the loop body of `func (sc serverConfig) getRepository(name string)`:
first repository whose `Name` matches wins, otherwise the formatted error. -/
def findRepository : List repositoryConfig → String → Except String repositoryConfig
  | [], n => Except.error ("failed to find configured repository with name: " ++ n)
  | r :: rest, n => if r.Name = n then Except.ok r else findRepository rest n

def getRepository (sc : serverConfig) (name : String) : Except String repositoryConfig :=
  findRepository sc.Repositories name

/-- go: the loop body of `func (sc serverConfig) tokenExists(key string) bool`. -/
def tokenExistsList : List repositoryConfig → String → Bool
  | [], _ => false
  | r :: rest, k => if r.Tokens.contains k then true else tokenExistsList rest k

def tokenExists (sc : serverConfig) (key : String) : Bool :=
  tokenExistsList sc.Repositories key

structure repositoryRequest where
  name : String
deriving DecidableEq

/-- go: one iteration of the `for i, r := range c.Repositories` loop of
`processConfig`. The loop variable `r` is a copy: `r.Branch = "main"` mutates
only the copy and is never written back, and every inner-loop assignment
`c.Repositories[i].Tokens = append(r.Tokens, t)` appends `t` to the unchanged
pre-loop list `r.Tokens`, so the final stored list is the original tokens plus
only the LAST global token. -/
def processRepository (globalTokens : List String) (r : repositoryConfig) :
    Except String repositoryConfig :=
  if r.Name = "" then Except.error "repository config missing name value"
  else if r.Local = "" then Except.error "repository config missing local value"
  else if r.Remote = "" then Except.error "repository config missing remote value"
  else
    let stored :=
      if globalTokens.length > 0 then
        globalTokens.foldl (fun _ t => r.Tokens ++ [t]) r.Tokens
      else r.Tokens
    Except.ok { r with Tokens := stored }

def processRepositories (globalTokens : List String) :
    List repositoryConfig → Except String (List repositoryConfig)
  | [] => Except.ok []
  | r :: rest => do
    let r2 ← processRepository globalTokens r
    let rest2 ← processRepositories globalTokens rest
    return r2 :: rest2

/-- go: `func processConfig(c *serverConfig) error`, as a pure transform of the
config (the go version mutates in place and returns the first error). -/
def processConfig (c : serverConfig) : Except String serverConfig := do
  let address := if c.Address = "" then "0.0.0.0" else c.Address
  let port := if c.Port = "" then "8654" else c.Port
  let repos ← processRepositories c.GlobalTokens c.Repositories
  return { Address := address, Port := port,
           GlobalTokens := c.GlobalTokens, Repositories := repos }

/-- The three opaque `git` subprocess steps of a sync. -/
inductive SyncStep where
  | fetch
  | reset
  | clean
deriving DecidableEq

/-- go: `fetchRepository` — run `git fetch origin <branch>`; a non-nil run
error `e` becomes `failed to fetch origin: <e>`. The subprocess outcome is the
oracle value `env SyncStep.fetch`. -/
def fetchRepository (env : SyncStep → Option String) (_r : repositoryConfig) :
    Except String Unit :=
  match env SyncStep.fetch with
  | none => Except.ok ()
  | some e => Except.error ("failed to fetch origin: " ++ e)

/-- go: `resetRepository` — run `git reset --hard origin/<branch>`. -/
def resetRepository (env : SyncStep → Option String) (_r : repositoryConfig) :
    Except String Unit :=
  match env SyncStep.reset with
  | none => Except.ok ()
  | some e => Except.error ("failed to reset origin: " ++ e)

/-- go: `cleanRepository` — run `git clean -fdx`. -/
def cleanRepository (env : SyncStep → Option String) (_r : repositoryConfig) :
    Except String Unit :=
  match env SyncStep.clean with
  | none => Except.ok ()
  | some e => Except.error ("failed to clean untracked files: " ++ e)

/-- go: `func syncRepository(r repositoryConfig) error`, paired with the trace
of subprocess steps actually invoked. -/
def syncRepositoryTrace (env : SyncStep → Option String) (r : repositoryConfig) :
    Except String Unit × List SyncStep :=
  match fetchRepository env r with
  | Except.error e =>
      (Except.error ("failed to sync repository: " ++ e), [SyncStep.fetch])
  | Except.ok _ =>
    match resetRepository env r with
    | Except.error e =>
        (Except.error ("failed to sync repository: " ++ e),
         [SyncStep.fetch, SyncStep.reset])
    | Except.ok _ =>
      match cleanRepository env r with
      | Except.error e =>
          (Except.error ("failed to clean repository: " ++ e),
           [SyncStep.fetch, SyncStep.reset, SyncStep.clean])
      | Except.ok _ =>
          (Except.ok (), [SyncStep.fetch, SyncStep.reset, SyncStep.clean])

/-- One inbound HTTP request, at the boundary the handler observes: `token` is
the value `r.Header.Get("X-GIT-SYNC-TOKEN")` returns (empty string = header
missing or empty), `body` is the JSON decode result of the request body. -/
structure httpRequest where
  token : String
  method : String
  body : Except String repositoryRequest

structure httpResponse where
  status : Nat
  body : String
deriving DecidableEq

/-- go: the `router.HandleFunc("/", ...)` closure in `main`, returning the
response written and the trace of subprocess steps invoked. On the
fully-authorized POST path the go handler returns without writing anything,
which net/http turns into status 200 with an empty body. -/
def handle (config : serverConfig) (env : SyncStep → Option String)
    (req : httpRequest) : httpResponse × List SyncStep :=
  if req.token = "" then (⟨401, "Unauthorized\n"⟩, [])
  else if !(tokenExists config req.token) then (⟨401, "Unauthorized\n"⟩, [])
  else if req.method = "GET" then (⟨200, "OK\n"⟩, [])
  else if req.method ≠ "POST" then (⟨405, "GET or POST only\n"⟩, [])
  else
    match req.body with
    | Except.error e =>
        (⟨400, "Bad Request: Failed to unmarshal json body: " ++ e ++ "\n"⟩, [])
    | Except.ok repReq =>
      if repReq.name = "" then
        (⟨400, "Bad Request: Repository name not provided\n"⟩, [])
      else
        match getRepository config repReq.name with
        | Except.error e =>
            (⟨404, "Bad Request: Repository not found: " ++ e ++ "\n"⟩, [])
        | Except.ok repoConfig =>
          if !(validToken repoConfig req.token) then (⟨401, "Unauthorized\n"⟩, [])
          else (⟨200, ""⟩, (syncRepositoryTrace env repoConfig).2)

/-! ### Helper lemmas about the authorizer and repository lookup -/

theorem validToken_iff (r : repositoryConfig) (t : String) :
    validToken r t = true ↔ t ∈ r.Tokens := by
  simp [validToken]

theorem tokenExistsList_of_mem {l : List repositoryConfig} {r : repositoryConfig}
    {t : String} (hr : r ∈ l) (hv : t ∈ r.Tokens) :
    tokenExistsList l t = true := by
  induction l with
  | nil => cases hr
  | cons a rest ih =>
    simp only [tokenExistsList]
    rcases List.mem_cons.mp hr with h | h
    · subst h
      simp [hv]
    · by_cases ha : a.Tokens.contains t = true
      · rw [if_pos ha]
      · rw [if_neg ha]
        exact ih h

theorem tokenExistsList_eq_false {l : List repositoryConfig} {t : String}
    (h : ∀ r ∈ l, t ∉ r.Tokens) :
    tokenExistsList l t = false := by
  induction l with
  | nil => rfl
  | cons a rest ih =>
    have ha := h a (List.mem_cons_self a rest)
    simp only [tokenExistsList]
    rw [if_neg (by simpa using ha)]
    exact ih fun r hr => h r (List.mem_cons_of_mem a hr)

theorem findRepository_ok {l : List repositoryConfig} {n : String}
    {r : repositoryConfig} (h : findRepository l n = Except.ok r) :
    r ∈ l ∧ r.Name = n := by
  induction l with
  | nil => simp [findRepository] at h
  | cons a rest ih =>
    by_cases ha : a.Name = n
    · simp only [findRepository, ha, if_true, Except.ok.injEq] at h
      subst h
      exact ⟨List.mem_cons_self a rest, ha⟩
    · simp only [findRepository, ha, if_false] at h
      rcases ih h with ⟨hm, hn⟩
      exact ⟨List.mem_cons_of_mem a hm, hn⟩

theorem findRepository_not_found {l : List repositoryConfig} {n : String}
    (h : ∀ r ∈ l, r.Name ≠ n) :
    findRepository l n =
      Except.error ("failed to find configured repository with name: " ++ n) := by
  induction l with
  | nil => rfl
  | cons a rest ih =>
    have ha := h a (List.mem_cons_self a rest)
    simp only [findRepository, ha, if_false]
    exact ih fun r hr => h r (List.mem_cons_of_mem a hr)

/-! ### Concrete sample data used by witnesses and counterexamples -/

def sampleRepo : repositoryConfig :=
  { Name := "docs", Local := "/opt/docs",
    Remote := "https://example.com/docs.git", Branch := "main",
    Tokens := ["abc"] }

def envFetchFail : SyncStep → Option String
  | SyncStep.fetch => some "exit status 1"
  | _ => none

def envAllOk : SyncStep → Option String := fun _ => none

/-! ### Claims -/

/-- Configuration exhibiting the global-token bug of claim C1: two global
tokens, one repository with no tokens of its own. -/
def c1Config : serverConfig :=
  { Address := "0.0.0.0", Port := "8654", GlobalTokens := ["g1", "g2"],
    Repositories := [{ Name := "docs", Local := "/opt/docs",
                       Remote := "https://example.com/docs.git",
                       Branch := "main", Tokens := [] }] }

/-- Claim C1 (evaluated at the failing input): after processConfig on a
configuration with globalTokens = ["g1", "g2"] and a repository with no
per-repository tokens, the repository stores only ["g2"] — the earlier global
token "g1" is dropped, and validToken rejects it, contrary to the claim that
every repository token set includes all global tokens. -/
theorem C1_global_token_dropped :
    (processConfig c1Config).map (fun c => c.Repositories.map repositoryConfig.Tokens)
      = Except.ok [["g2"]]
  ∧ (processConfig c1Config).map (fun c => c.Repositories.map (fun r => validToken r "g1"))
      = Except.ok [false]
  ∧ (processConfig c1Config).map (fun c => c.Repositories.map (fun r => validToken r "g2"))
      = Except.ok [true] :=
  ⟨rfl, rfl, rfl⟩

/-- Claim C2: syncRepository invokes fetch, then reset, then clean, strictly
in that order, and aborts at the first failing step with a step-wrapped
error: the invocation trace is always a prefix of [fetch, reset, clean], a
fetch failure leaves trace [fetch] (reset and clean never invoked), a reset
failure leaves trace [fetch, reset] (clean never invoked), a clean failure
or full success leaves the complete trace. -/
theorem C2_sync_sequence (env : SyncStep → Option String) (r : repositoryConfig) :
    ((syncRepositoryTrace env r).2 = [SyncStep.fetch]
      ∨ (syncRepositoryTrace env r).2 = [SyncStep.fetch, SyncStep.reset]
      ∨ (syncRepositoryTrace env r).2 = [SyncStep.fetch, SyncStep.reset, SyncStep.clean])
  ∧ (∀ e, env SyncStep.fetch = some e →
      syncRepositoryTrace env r =
        (Except.error ("failed to sync repository: " ++ ("failed to fetch origin: " ++ e)),
         [SyncStep.fetch]))
  ∧ (∀ e, env SyncStep.fetch = none → env SyncStep.reset = some e →
      syncRepositoryTrace env r =
        (Except.error ("failed to sync repository: " ++ ("failed to reset origin: " ++ e)),
         [SyncStep.fetch, SyncStep.reset]))
  ∧ (∀ e, env SyncStep.fetch = none → env SyncStep.reset = none →
        env SyncStep.clean = some e →
      syncRepositoryTrace env r =
        (Except.error ("failed to clean repository: " ++ ("failed to clean untracked files: " ++ e)),
         [SyncStep.fetch, SyncStep.reset, SyncStep.clean]))
  ∧ (env SyncStep.fetch = none → env SyncStep.reset = none →
        env SyncStep.clean = none →
      syncRepositoryTrace env r =
        (Except.ok (), [SyncStep.fetch, SyncStep.reset, SyncStep.clean])) := by
  cases hf : env SyncStep.fetch <;> cases hr : env SyncStep.reset <;>
    cases hc : env SyncStep.clean <;>
    simp [syncRepositoryTrace, fetchRepository, resetRepository, cleanRepository,
      hf, hr, hc]

/-- Witness for C2: a fetch failure on a concrete repository yields the
wrapped error with trace [fetch]; the all-success oracle yields the full
trace in order. -/
theorem C2_sync_sequence_witness :
    syncRepositoryTrace envFetchFail sampleRepo =
      (Except.error "failed to sync repository: failed to fetch origin: exit status 1",
       [SyncStep.fetch])
  ∧ syncRepositoryTrace envAllOk sampleRepo =
      (Except.ok (), [SyncStep.fetch, SyncStep.reset, SyncStep.clean]) :=
  ⟨(C2_sync_sequence envFetchFail sampleRepo).2.1 "exit status 1" rfl,
   (C2_sync_sequence envAllOk sampleRepo).2.2.2.2 rfl rfl rfl⟩

def repoNeovim : repositoryConfig :=
  { Name := "neovim", Local := "/opt/neovim",
    Remote := "https://github.com/neovim/neovim.git", Branch := "main",
    Tokens := ["spiderman"] }

def sampleConfig : serverConfig :=
  { Address := "0.0.0.0", Port := "8654", GlobalTokens := [],
    Repositories := [sampleRepo, repoNeovim] }

/-- Claim C3: a POST request that passes every authorization and validation
check is answered with HTTP status 200, whatever the outcome of the sync
steps (the oracle env is universally quantified). -/
theorem C3_authorized_post_status_200 (config : serverConfig)
    (env : SyncStep → Option String) (req : httpRequest)
    (repReq : repositoryRequest) (repo : repositoryConfig)
    (htok : req.token ≠ "") (hex : tokenExists config req.token = true)
    (hm : req.method = "POST") (hb : req.body = Except.ok repReq)
    (hn : repReq.name ≠ "")
    (hg : getRepository config repReq.name = Except.ok repo)
    (hv : validToken repo req.token = true) :
    (handle config env req).1.status = 200 := by
  simp [handle, htok, hex, hm, hb, hn, hg, hv]

/-- Witness for C3: a fully-authorized POST on a concrete configuration is
answered 200 even though the fetch step fails. -/
theorem C3_authorized_post_status_200_witness :
    (handle sampleConfig envFetchFail
      ⟨"abc", "POST", Except.ok ⟨"docs"⟩⟩).1.status = 200 :=
  C3_authorized_post_status_200 sampleConfig envFetchFail
    ⟨"abc", "POST", Except.ok ⟨"docs"⟩⟩ ⟨"docs"⟩ sampleRepo
    (by decide) rfl rfl rfl (by decide) rfl rfl

/-- Claim C4: a token that (post-inheritance) belongs only to repositories
named A, presented on a POST naming a configured repository B with B different
from A, is rejected 401 with no sync step invoked, even though it passes the
coarse tokenExists check. -/
theorem C4_wrong_repo_unauthorized (config : serverConfig)
    (env : SyncStep → Option String) (req : httpRequest)
    (body : repositoryRequest) (rB : repositoryConfig) (A : String)
    (honly : ∀ r ∈ config.Repositories, validToken r req.token = true → r.Name = A)
    (hex : tokenExists config req.token = true)
    (hm : req.method = "POST") (hb : req.body = Except.ok body)
    (hB : getRepository config body.name = Except.ok rB)
    (hBA : body.name ≠ A) (hBne : body.name ≠ "") :
    (handle config env req).1.status = 401 ∧ (handle config env req).2 = [] := by
  have hB2 : findRepository config.Repositories body.name = Except.ok rB := hB
  have hmem := findRepository_ok hB2
  have hv : validToken rB req.token = false := by
    cases hval : validToken rB req.token
    · rfl
    · exact absurd (hmem.2 ▸ honly rB hmem.1 hval) hBA
  by_cases htok : req.token = ""
  · constructor <;> simp [handle, htok]
  · constructor <;> simp [handle, htok, hex, hm, hb, hBne, hB, hv]

/-- Witness for C4: token abc is scoped to repository docs only; a POST naming
neovim with it is rejected 401 and triggers no sync step. -/
theorem C4_wrong_repo_unauthorized_witness :
    (handle sampleConfig envAllOk
      ⟨"abc", "POST", Except.ok ⟨"neovim"⟩⟩).1.status = 401
  ∧ (handle sampleConfig envAllOk ⟨"abc", "POST", Except.ok ⟨"neovim"⟩⟩).2 = [] :=
  C4_wrong_repo_unauthorized sampleConfig envAllOk
    ⟨"abc", "POST", Except.ok ⟨"neovim"⟩⟩ ⟨"neovim"⟩ repoNeovim "docs"
    (by decide) rfl rfl rfl rfl (by decide) (by decide)

/-- Claim C5: a token absent from every repository token set (post
inheritance), the empty header value included, is answered 401 with no sync
step invoked, whatever the method and body. -/
theorem C5_unknown_token_unauthorized (config : serverConfig)
    (env : SyncStep → Option String) (req : httpRequest)
    (habs : ∀ r ∈ config.Repositories, req.token ∉ r.Tokens) :
    (handle config env req).1.status = 401 ∧ (handle config env req).2 = [] := by
  by_cases htok : req.token = ""
  · constructor <;> simp [handle, htok]
  · have hex : tokenExists config req.token = false := tokenExistsList_eq_false habs
    constructor <;> simp [handle, htok, hex]

/-- Witness for C5: an unknown token on a well-formed POST is rejected 401
with no sync step invoked. -/
theorem C5_unknown_token_unauthorized_witness :
    (handle sampleConfig envAllOk
      ⟨"mallory", "POST", Except.ok ⟨"docs"⟩⟩).1.status = 401
  ∧ (handle sampleConfig envAllOk ⟨"mallory", "POST", Except.ok ⟨"docs"⟩⟩).2 = [] :=
  C5_unknown_token_unauthorized sampleConfig envAllOk
    ⟨"mallory", "POST", Except.ok ⟨"docs"⟩⟩ (by decide)

/-- Claim C6: a GET request carrying a non-empty token valid for at least one
repository is answered 200 with body OK and newline, and invokes no sync
step. -/
theorem C6_get_no_sync (config : serverConfig) (env : SyncStep → Option String)
    (req : httpRequest) (r : repositoryConfig)
    (hr : r ∈ config.Repositories) (hv : validToken r req.token = true)
    (htok : req.token ≠ "") (hm : req.method = "GET") :
    handle config env req = (⟨200, "OK\n"⟩, []) := by
  have hex : tokenExists config req.token = true :=
    tokenExistsList_of_mem hr ((validToken_iff r req.token).mp hv)
  simp [handle, htok, hex, hm]

/-- Witness for C6: a GET with the docs-scoped token is answered 200 OK with
an empty trace. -/
theorem C6_get_no_sync_witness :
    handle sampleConfig envAllOk ⟨"abc", "GET", Except.error "EOF"⟩ =
      (⟨200, "OK\n"⟩, []) :=
  C6_get_no_sync sampleConfig envAllOk ⟨"abc", "GET", Except.error "EOF"⟩
    sampleRepo (by decide) rfl (by decide) rfl

/-- Claim C7: with a non-empty token that is valid somewhere, request-shape
failures map to exactly these responses, each with no sync step invoked: a
method that is neither GET nor POST gives 405; a POST whose body fails to
decode gives 400; a decoded body with an empty name gives 400; a name
matching no configured repository gives 404. -/
theorem C7_request_shape (config : serverConfig) (env : SyncStep → Option String)
    (req : httpRequest)
    (htok : req.token ≠ "") (hex : tokenExists config req.token = true) :
    (req.method ≠ "GET" → req.method ≠ "POST" →
      handle config env req = (⟨405, "GET or POST only\n"⟩, []))
  ∧ (∀ e, req.method = "POST" → req.body = Except.error e →
      handle config env req =
        (⟨400, "Bad Request: Failed to unmarshal json body: " ++ e ++ "\n"⟩, []))
  ∧ (∀ b, req.method = "POST" → req.body = Except.ok b → b.name = "" →
      handle config env req =
        (⟨400, "Bad Request: Repository name not provided\n"⟩, []))
  ∧ (∀ b, req.method = "POST" → req.body = Except.ok b → b.name ≠ "" →
      (∀ r ∈ config.Repositories, r.Name ≠ b.name) →
      handle config env req =
        (⟨404, "Bad Request: Repository not found: " ++
            ("failed to find configured repository with name: " ++ b.name) ++ "\n"⟩,
         [])) := by
  refine ⟨?_, ?_, ?_, ?_⟩
  · intro hg hp
    simp [handle, htok, hex, hg, hp]
  · intro e hm hb
    simp [handle, htok, hex, hm, hb]
  · intro b hm hb hn
    simp [handle, htok, hex, hm, hb, hn]
  · intro b hm hb hn hnf
    have h404 : getRepository config b.name =
        Except.error ("failed to find configured repository with name: " ++ b.name) :=
      findRepository_not_found hnf
    simp [handle, htok, hex, hm, hb, hn, h404]

/-- Witness for C7: the four request-shape failures at concrete inputs. -/
theorem C7_request_shape_witness :
    handle sampleConfig envAllOk ⟨"abc", "PUT", Except.ok ⟨"docs"⟩⟩ =
      (⟨405, "GET or POST only\n"⟩, [])
  ∧ handle sampleConfig envAllOk ⟨"abc", "POST", Except.error "unexpected EOF"⟩ =
      (⟨400, "Bad Request: Failed to unmarshal json body: unexpected EOF\n"⟩, [])
  ∧ handle sampleConfig envAllOk ⟨"abc", "POST", Except.ok ⟨""⟩⟩ =
      (⟨400, "Bad Request: Repository name not provided\n"⟩, [])
  ∧ handle sampleConfig envAllOk ⟨"abc", "POST", Except.ok ⟨"ghost"⟩⟩ =
      (⟨404,
        "Bad Request: Repository not found: failed to find configured repository with name: ghost\n"⟩,
       []) :=
  ⟨(C7_request_shape sampleConfig envAllOk ⟨"abc", "PUT", Except.ok ⟨"docs"⟩⟩
      (by decide) rfl).1 (by decide) (by decide),
   (C7_request_shape sampleConfig envAllOk ⟨"abc", "POST", Except.error "unexpected EOF"⟩
      (by decide) rfl).2.1 "unexpected EOF" rfl rfl,
   (C7_request_shape sampleConfig envAllOk ⟨"abc", "POST", Except.ok ⟨""⟩⟩
      (by decide) rfl).2.2.1 ⟨""⟩ rfl rfl rfl,
   (C7_request_shape sampleConfig envAllOk ⟨"abc", "POST", Except.ok ⟨"ghost"⟩⟩
      (by decide) rfl).2.2.2 ⟨"ghost"⟩ rfl rfl (by decide) (by decide)⟩

/-- Claim C10: with an empty repositories list, tokenExists rejects every
token (global tokens included, since inheritance had no repository to write
to), so every request is answered 401 with no sync step invoked. -/
theorem C10_no_repositories (config : serverConfig)
    (env : SyncStep → Option String) (req : httpRequest)
    (h : config.Repositories = []) :
    (∀ t, tokenExists config t = false)
  ∧ (handle config env req).1.status = 401
  ∧ (handle config env req).2 = [] := by
  have hex : ∀ t, tokenExists config t = false := by
    intro t
    unfold tokenExists
    rw [h]
    rfl
  refine ⟨hex, ?_, ?_⟩ <;> by_cases htok : req.token = "" <;>
    simp [handle, htok, hex]

def emptyReposConfig : serverConfig :=
  { Address := "", Port := "", GlobalTokens := ["zelda"], Repositories := [] }

/-- Witness for C10: with no repositories, even the global token zelda is
rejected 401 with no sync step invoked. -/
theorem C10_no_repositories_witness :
    tokenExists emptyReposConfig "zelda" = false
  ∧ (handle emptyReposConfig envAllOk
      ⟨"zelda", "POST", Except.ok ⟨"docs"⟩⟩).1.status = 401 :=
  ⟨(C10_no_repositories emptyReposConfig envAllOk
      ⟨"zelda", "POST", Except.ok ⟨"docs"⟩⟩ rfl).1 "zelda",
   (C10_no_repositories emptyReposConfig envAllOk
      ⟨"zelda", "POST", Except.ok ⟨"docs"⟩⟩ rfl).2.1⟩

def c8Config : serverConfig :=
  { Address := "", Port := "", GlobalTokens := [], Repositories := [] }

def c8Processed : serverConfig :=
  { Address := "0.0.0.0", Port := "8654", GlobalTokens := [], Repositories := [] }

/-- Claim C8 counterexample: on a configuration whose address is the empty
string, processConfig rewrites the address to the wildcard 0.0.0.0 instead
of leaving it as given. -/
theorem C8_address_rewritten_counterexample :
    (processConfig c8Config).map serverConfig.Address = Except.ok "0.0.0.0"
  ∧ c8Config.Address = ""
  ∧ ¬ (processConfig c8Config).map serverConfig.Address =
        Except.ok c8Config.Address :=
  ⟨rfl, rfl, fun h =>
    absurd
      (Except.ok.inj
        ((show (processConfig c8Config).map serverConfig.Address =
            Except.ok "0.0.0.0" from rfl).symm.trans h))
      (by decide)⟩

/-- Claim C8 as amended: processConfig rewrites an empty listenAddress to the
wildcard 0.0.0.0 (a non-empty address is left as given) and defaults an empty
listenPort to 8654 (a non-empty port is left as given). -/
theorem C8_amended_defaults (c c2 : serverConfig)
    (h : processConfig c = Except.ok c2) :
    c2.Address = (if c.Address = "" then "0.0.0.0" else c.Address)
  ∧ c2.Port = (if c.Port = "" then "8654" else c.Port) := by
  unfold processConfig at h
  cases hrep : processRepositories c.GlobalTokens c.Repositories with
  | error e =>
    rw [hrep] at h
    simp [Except.bind] at h
  | ok repos =>
    rw [hrep] at h
    have h2 : Except.ok (ε := String)
        { Address := if c.Address = "" then "0.0.0.0" else c.Address,
          Port := if c.Port = "" then "8654" else c.Port,
          GlobalTokens := c.GlobalTokens, Repositories := repos } =
        Except.ok c2 := h
    cases Except.ok.inj h2
    exact ⟨rfl, rfl⟩

/-- Witness for the amended C8 at the concrete empty-address, empty-port
configuration. -/
theorem C8_amended_defaults_witness :
    c8Processed.Address = (if c8Config.Address = "" then "0.0.0.0" else c8Config.Address)
  ∧ c8Processed.Port = (if c8Config.Port = "" then "8654" else c8Config.Port) :=
  C8_amended_defaults c8Config c8Processed rfl

/-- A body is newline-terminated when its last character is a newline. -/
def newlineTerminated (s : String) : Bool :=
  match s.data.getLast? with
  | some c => c = '\n'
  | none => false

theorem newlineTerminated_append (s : String) :
    newlineTerminated (s ++ "\n") = true := by
  have h : (s ++ "\n").data = s.data ++ ['\n'] := by
    rw [String.congr_append]
  unfold newlineTerminated
  rw [h, List.getLast?_concat]
  rfl

/-- Claim C9 counterexample: the fully-authorized POST path answers with an
empty body (the go handler returns without writing, so net/http sends 200
with no body), which is not newline-terminated. -/
theorem C9_empty_success_body_counterexample :
    (handle sampleConfig envAllOk ⟨"abc", "POST", Except.ok ⟨"docs"⟩⟩).1 =
      ⟨200, ""⟩
  ∧ newlineTerminated
      (handle sampleConfig envAllOk ⟨"abc", "POST", Except.ok ⟨"docs"⟩⟩).1.body =
      false :=
  ⟨rfl, rfl⟩

/-- Claim C9 as amended: every handler response body is newline-terminated,
except on the fully-authorized POST path where the response is status 200
with an empty body. -/
theorem C9_amended_bodies (config : serverConfig)
    (env : SyncStep → Option String) (req : httpRequest) :
    newlineTerminated (handle config env req).1.body = true
  ∨ ((handle config env req).1.body = ""
      ∧ (handle config env req).1.status = 200) := by
  unfold handle
  split
  · exact Or.inl rfl
  · split
    · exact Or.inl rfl
    · split
      · exact Or.inl rfl
      · split
        · exact Or.inl rfl
        · split
          · exact Or.inl (newlineTerminated_append _)
          · split
            · exact Or.inl rfl
            · split
              · exact Or.inl (newlineTerminated_append _)
              · split
                · exact Or.inl rfl
                · exact Or.inr ⟨rfl, rfl⟩
